import Mathlib

/-!
Shallow embedding of the Scantastic pairing-session controller from
`src/apps/mobile/src/features/scantastic/ScantasticModal.tsx`.

The component's view state is the record `Session` (the `useState` hooks:
`OTP`, `expirationTimestamp`, `expired`, `redeemed`, `error`,
`showIPWarning`).  The three operations are:

* `onEncryptSeedphrase` — the confirm flow (encryption call, then the
  submit-blob POST and interpretation of its response);
* `checkOTPState` — the 1-second poll of `/otp-state/{uuid}`;
* `tick` — the 1-second interval that recomputes `expired` from
  `expirationTimestamp - Date.now()`.

Network I/O is made explicit: each operation takes the outcome of its
HTTP call (`FetchResult`) as a parameter, and `onEncryptSeedphrase`
additionally returns the submit-blob request it issued (if any), so that
theorems can talk about whether a request was made and with which blob.

The spec's derived `status` enum is read off the component's render order
(lines 79, 228, 252, 274, 300 of the source): `redeemed` triggers the
completion dispatch first, then the render branches check
`showIPWarning`, `expired`, `OTP`, `error` in that order.
-/

namespace Scantastic

/-- ONE_SECOND_MS from `utilities/src/time/time`. -/
def ONE_SECOND_MS : Nat := 1000

/-- ONE_MINUTE_MS from `utilities/src/time/time`. -/
def ONE_MINUTE_MS : Nat := 60 * ONE_SECOND_MS

/-- IP_MISMATCH_STATUS_CODE from ScantasticModal.tsx line 26. -/
def IP_MISMATCH_STATUS_CODE : Nat := 401

/-- OtpState enum from ScantasticModal.tsx lines 28-32. -/
inductive OtpState where
  | pending
  | redeemed
  | expired
deriving DecidableEq

/-- OtpStateApiResponse from ScantasticModal.tsx lines 33-36.  Both fields
are optional; `Option` models presence/absence of the JSON field.  A JS
falsy check on `expiresAtInSeconds` additionally treats `0` as absent,
which the operations model explicitly. -/
structure OtpStateApiResponse where
  otp : Option OtpState
  expiresAtInSeconds : Option Nat
deriving DecidableEq

/-- Body of a successful submit-blob response: `data?.otp` is read off the
parsed JSON; absence is `none`, and the JS falsy check also rejects `""`. -/
structure BlobApiResponse where
  otp : Option String
deriving DecidableEq

/-- Outcome of a `fetch` call: either the promise rejects in transport
(`transportError`), or a response arrives with an HTTP status code and a
parsed body (`none` when `response.json()` fails to parse). -/
inductive FetchResult (β : Type) where
  | transportError
  | response (statusCode : Nat) (body : β)
deriving DecidableEq

/-- fetch Response.ok: true exactly when the status code is in 200..299. -/
def fetchOk (statusCode : Nat) : Bool :=
  decide (200 ≤ statusCode ∧ statusCode < 300)

/-- PublicKey components `{n, e}` destructured at line 110. -/
structure PublicKey where
  n : String
  e : String
deriving DecidableEq

/-- The pairing parameters taken from modal state (lines 52-63): the RSA
public key (absent when the QR payload was incomplete) and the session
uuid (the source reads `params?.uuid`; the empty string models absence,
matching the JS falsy guard `!uuid`). -/
structure ScantasticParams where
  publicKey : Option PublicKey
  uuid : String
deriving DecidableEq

/-- The component's view state: the six `useState` hooks of
ScantasticModal.tsx (lines 55-70).  Timestamps are milliseconds since
epoch as in `Date.now()`. -/
structure Session where
  OTP : String
  expirationTimestamp : Nat
  expired : Bool
  redeemed : Bool
  error : String
  showIPWarning : Bool
deriving DecidableEq

/-- Initial view state (lines 55-70): empty OTP, six-minute scan window,
all flags clear. -/
def initialSession (now : Nat) : Session :=
  { OTP := ""
    expirationTimestamp := now + 6 * ONE_MINUTE_MS
    expired := false
    redeemed := false
    error := ""
    showIPWarning := false }

/-- The spec's session status enum, derived from the component's render
order. -/
inductive Status where
  | AwaitingConfirmation
  | AwaitingRedemption
  | Redeemed
  | Expired
  | IpMismatch
  | Failed
deriving DecidableEq

/-- Observable status, read off the component body in source order: the
`redeemed` completion block (line 79) runs first, then the render
branches test `showIPWarning` (line 228), `expired` (line 252), `OTP`
(line 274) and `error` (line 300); otherwise the confirmation screen is
shown. -/
def status (s : Session) : Status :=
  if s.redeemed then .Redeemed
  else if s.showIPWarning then .IpMismatch
  else if s.expired then .Expired
  else if s.OTP ≠ "" then .AwaitingRedemption
  else if s.error ≠ "" then .Failed
  else .AwaitingConfirmation

/-- The tick interval (lines 90-97): `timeLeft = expirationTimestamp -
Date.now()`, then `setExpired(timeLeft <= 0)`.  Note the flag is
overwritten with the current comparison, not only set. -/
def tick (now : Nat) (s : Session) : Session :=
  { s with expired := decide ((s.expirationTimestamp : Int) - (now : Int) ≤ 0) }

/-- The localized encryption-failure message set at line 114. -/
def scantasticErrorEncryption : String := "scantastic.error.encryption"

/-- The localized submission-failure message set at lines 159. -/
def scantasticErrorNoCode : String := "scantastic.error.noCode"

/-- The submit-blob request body (line 137): the session uuid and the
encrypted blob. -/
structure SubmitRequest where
  uuid : String
  blob : String
deriving DecidableEq

/-- onEncryptSeedphrase (lines 103-168).  `encResult` is the outcome of
`getEncryptedMnemonic` (the external Encryption Collaborator); `res` is
the outcome of the submit-blob fetch; `now` is `Date.now()` at response
time.  Returns the new view state together with the submit-blob request
issued (`none` exactly when the function returned at the missing-pubKey
guard).  Faithful points: the encryption `catch` sets the error message
but does not return, so the fetch still runs with `encryptedSeedphrase`
left at `''`; the 401 check precedes the `response.ok` check; an OTP
field that is absent or `''` (JS falsy) raises the no-code error. -/
def onEncryptSeedphrase (params : ScantasticParams) (encResult : Except String String)
    (res : FetchResult (Option BlobApiResponse)) (now : Nat) (s : Session) :
    Session × Option SubmitRequest :=
  match params.publicKey with
  | none => (s, none)
  | some _ =>
    let s0 : Session := { s with error := "" }
    let encryptedSeedphrase : String :=
      match encResult with
      | .ok blob => blob
      | .error _ => ""
    let s1 : Session :=
      match encResult with
      | .ok _ => s0
      | .error _ => { s0 with error := scantasticErrorEncryption }
    let req : SubmitRequest := { uuid := params.uuid, blob := encryptedSeedphrase }
    match res with
    | .transportError => ({ s1 with error := scantasticErrorNoCode }, some req)
    | .response statusCode body =>
      if statusCode = IP_MISMATCH_STATUS_CODE then
        ({ s1 with showIPWarning := true }, some req)
      else if fetchOk statusCode then
        match body with
        | none => ({ s1 with error := scantasticErrorNoCode }, some req)
        | some data =>
          match data.otp with
          | some otpValue =>
            if otpValue ≠ "" then
              ({ s1 with
                  expirationTimestamp := now + ONE_MINUTE_MS * 2
                  OTP := otpValue }, some req)
            else
              ({ s1 with error := scantasticErrorNoCode }, some req)
          | none => ({ s1 with error := scantasticErrorNoCode }, some req)
      else
        ({ s1 with error := scantasticErrorNoCode }, some req)

/-- checkOTPState (lines 186-224).  Guard: no-op while `OTP` or `uuid` is
empty (JS falsy).  Any transport failure, non-ok status, unparsable body
or missing `otp` field is caught and only logged.  On a well-formed
response: a truthy `expiresAtInSeconds` replaces the expiry
unconditionally, then `redeemed` / `expired` are set according to the
reported state. -/
def checkOTPState (uuid : String) (res : FetchResult (Option OtpStateApiResponse))
    (s : Session) : Session :=
  if s.OTP = "" ∨ uuid = "" then s
  else
    match res with
    | .transportError => s
    | .response statusCode body =>
      if fetchOk statusCode then
        match body with
        | none => s
        | some data =>
          match data.otp with
          | none => s
          | some otpState =>
            let s1 : Session :=
              match data.expiresAtInSeconds with
              | some k =>
                if k ≠ 0 then { s with expirationTimestamp := k * ONE_SECOND_MS } else s
              | none => s
            let s2 : Session :=
              if otpState = .redeemed then { s1 with redeemed := true } else s1
            if otpState = .expired then { s2 with expired := true } else s2
      else s

/-- Signer account as consumed by the account selection (lines 44-46). -/
structure SignerAccount where
  address : String
  derivationIndex : Nat
deriving DecidableEq

/-- The sort comparator of line 45: ascending by `derivationIndex`. -/
def derivationLe (a b : SignerAccount) : Bool :=
  decide (a.derivationIndex ≤ b.derivationIndex)

/-- Account selection (lines 44-46): sort the signer accounts by
`derivationIndex` ascending and take the first.  `Array.prototype.sort`
with the numeric comparator produces a list sorted by the key;
`List.mergeSort` models it. -/
def scantasticAccount (accounts : List SignerAccount) : Option SignerAccount :=
  (accounts.mergeSort derivationLe).head?

/-- The address handed to `getEncryptedMnemonic` (line 112):
`account?.address || ''`, where the JS `||` maps a falsy (empty) address
to `''`. -/
def encryptionAddress (accounts : List SignerAccount) : String :=
  match scantasticAccount accounts with
  | some a => if a.address = "" then "" else a.address
  | none => ""

/-- A controller event: a confirm attempt (with the outcomes of the
encryption call and the submit-blob fetch), a poll (with the outcome of
the otp-state fetch), or a one-second timer tick at wall-clock `now`. -/
inductive Ev where
  | confirm (encResult : Except String String)
      (res : FetchResult (Option BlobApiResponse)) (now : Nat)
  | poll (res : FetchResult (Option OtpStateApiResponse))
  | tick (now : Nat)

/-- Apply one controller event to the view state. -/
def step (params : ScantasticParams) (s : Session) : Ev → Session
  | .confirm encResult res now => (onEncryptSeedphrase params encResult res now s).1
  | .poll res => checkOTPState params.uuid res s
  | .tick now => tick now s

/-- Apply a sequence of controller events. -/
def run (params : ScantasticParams) (s : Session) : List Ev → Session
  | [] => s
  | e :: evs => run params (step params s e) evs

/-- The mounted component together with the completion-signal bookkeeping
of the `if (redeemed)` block (lines 79-88): `active` is whether the modal
is still mounted, `signalCount` how many times the completion dispatch
(ScantasticComplete notification, onboarding-complete flag,
`closeAllModals`) has run. -/
structure Sys where
  session : Session
  active : Bool
  signalCount : Nat
deriving DecidableEq

/-- A system-level event: a controller event (delivered only while the
modal is mounted — `useInterval` and the confirm button are torn down on
unmount), a React render (which runs the `if (redeemed)` completion block;
its `closeAllModals` dispatch unmounts the modal), or the user closing
the modal. -/
inductive SysEv where
  | op (e : Ev)
  | render
  | close

/-- System-level step. -/
def sysStep (params : ScantasticParams) (t : Sys) : SysEv → Sys
  | .op e => if t.active then { t with session := step params t.session e } else t
  | .render =>
    if t.active ∧ t.session.redeemed then
      { t with signalCount := t.signalCount + 1, active := false }
    else t
  | .close => { t with active := false }

/-- Apply a sequence of system-level events. -/
def sysRun (params : ScantasticParams) (t : Sys) : List SysEv → Sys
  | [] => t
  | e :: evs => sysRun params (sysStep params t e) evs

/-! Helper lemmas: reading the derived `status` back as constraints on
the underlying flags, and preservation facts about the operations. -/

theorem status_redeemed_iff (s : Session) :
    status s = .Redeemed ↔ s.redeemed = true := by
  unfold status
  split_ifs <;> simp_all

theorem status_ipMismatch_iff (s : Session) :
    status s = .IpMismatch ↔ s.redeemed = false ∧ s.showIPWarning = true := by
  unfold status
  split_ifs <;> simp_all

theorem status_expired_iff (s : Session) :
    status s = .Expired ↔
      s.redeemed = false ∧ s.showIPWarning = false ∧ s.expired = true := by
  unfold status
  split_ifs <;> simp_all

theorem status_awaitingRedemption_iff (s : Session) :
    status s = .AwaitingRedemption ↔
      s.redeemed = false ∧ s.showIPWarning = false ∧ s.expired = false ∧
        s.OTP ≠ "" := by
  unfold status
  split_ifs <;> simp_all

theorem onEncryptSeedphrase_redeemed (params : ScantasticParams)
    (encResult : Except String String) (res : FetchResult (Option BlobApiResponse))
    (now : Nat) (s : Session) :
    (onEncryptSeedphrase params encResult res now s).1.redeemed = s.redeemed := by
  unfold onEncryptSeedphrase
  cases params.publicKey <;> cases encResult <;> cases res <;>
    simp only [] <;> (repeat' split) <;> rfl

theorem checkOTPState_redeemed_of_redeemed (uuid : String)
    (res : FetchResult (Option OtpStateApiResponse)) (s : Session)
    (h : s.redeemed = true) :
    (checkOTPState uuid res s).redeemed = true := by
  unfold checkOTPState
  (repeat' split) <;> simp_all

theorem tick_redeemed (now : Nat) (s : Session) :
    (tick now s).redeemed = s.redeemed := rfl

theorem step_redeemed_of_redeemed (params : ScantasticParams) (s : Session)
    (e : Ev) (h : s.redeemed = true) : (step params s e).redeemed = true := by
  cases e with
  | confirm encResult res now =>
    simpa [step, onEncryptSeedphrase_redeemed] using h
  | poll res => exact checkOTPState_redeemed_of_redeemed _ _ _ h
  | tick now => simpa [step, tick_redeemed] using h

theorem run_redeemed_of_redeemed (params : ScantasticParams) (s : Session)
    (evs : List Ev) (h : s.redeemed = true) :
    (run params s evs).redeemed = true := by
  induction evs generalizing s with
  | nil => exact h
  | cons e evs ih => exact ih _ (step_redeemed_of_redeemed params s e h)

/-- Completion-signal invariant: the count never exceeds one, and while
the modal is still mounted it is still zero (because the first firing of
the completion block also dispatches `closeAllModals`). -/
def SignalInv (t : Sys) : Prop :=
  t.signalCount ≤ 1 ∧ (t.active = true → t.signalCount = 0)

theorem sysStep_signalInv (params : ScantasticParams) (t : Sys) (e : SysEv)
    (h : SignalInv t) : SignalInv (sysStep params t e) := by
  obtain ⟨h1, h2⟩ := h
  cases e with
  | op e =>
    by_cases ha : t.active = true
    · simp only [sysStep, if_pos ha, SignalInv]
      exact ⟨h1, fun _ => h2 ha⟩
    · simp only [sysStep, if_neg ha, SignalInv]
      exact ⟨h1, h2⟩
  | render =>
    by_cases hc : t.active = true ∧ t.session.redeemed = true
    · have hz := h2 hc.1
      simp [sysStep, SignalInv, hc, hz]
    · simp only [sysStep, SignalInv, if_neg hc]
      exact ⟨h1, h2⟩
  | close =>
    exact ⟨h1, fun hfalse => by simp [sysStep] at hfalse⟩

theorem sysRun_signalInv (params : ScantasticParams) (t : Sys) (evs : List SysEv)
    (h : SignalInv t) : SignalInv (sysRun params t evs) := by
  induction evs generalizing t with
  | nil => exact h
  | cons e evs ih => exact ih _ (sysStep_signalInv params t e h)

theorem sysRun_inactive_frozen (params : ScantasticParams) (t : Sys)
    (evs : List SysEv) (h : t.active = false) :
    (sysRun params t evs).signalCount = t.signalCount ∧
      (sysRun params t evs).active = false := by
  induction evs generalizing t with
  | nil => exact ⟨rfl, h⟩
  | cons e evs ih =>
    have hA : (sysStep params t e).active = false := by
      cases e <;> simp [sysStep, h]
    have hC : (sysStep params t e).signalCount = t.signalCount := by
      cases e <;> simp [sysStep, h]
    have hrec := ih (sysStep params t e) hA
    exact ⟨hrec.1.trans hC, hrec.2⟩

/-! Concrete fixtures used by witnesses and counterexamples. -/

/-- A session awaiting redemption: OTP issued, expiry at t = 1000000 ms. -/
def awaitingSession : Session :=
  { OTP := "123456"
    expirationTimestamp := 1000000
    expired := false
    redeemed := false
    error := ""
    showIPWarning := false }

/-- Pairing parameters with a public key present and uuid `"abc"`. -/
def abcParams : ScantasticParams :=
  { publicKey := some { n := "3233", e := "17" }, uuid := "abc" }

/-! Claims. -/

/-- C2 (amended): once the observable status is `Redeemed`, no sequence
of further confirm/poll/tick events changes it.  (The full claimed
terminal set is not stable; see the counterexample.) -/
theorem C2_redeemed_status_terminal (params : ScantasticParams) (s : Session)
    (evs : List Ev) (h : status s = .Redeemed) :
    status (run params s evs) = .Redeemed := by
  rw [status_redeemed_iff] at h ⊢
  exact run_redeemed_of_redeemed params s evs h

/-- Witness for C2: a concrete redeemed session stays `Redeemed` under a
tick, a poll reporting expiry, and a failing confirm. -/
theorem C2_redeemed_status_terminal_witness :
    status { awaitingSession with redeemed := true } = .Redeemed ∧
    status (run abcParams { awaitingSession with redeemed := true }
      [.tick 2000000,
       .poll (.response 200 (some { otp := some .expired, expiresAtInSeconds := none })),
       .confirm (.error "x") .transportError 0]) = .Redeemed :=
  ⟨by decide, C2_redeemed_status_terminal abcParams _ _ (by decide)⟩

/-- C2 counterexample: a session whose status has reached the terminal
value `Expired` (the server reported the OTP expired while the local
expiry still lies in the future) is changed back to `AwaitingRedemption`
by the very next tick, because the tick interval overwrites `expired`
with the current wall-clock comparison instead of only setting it. -/
theorem C2_counterexample :
    status (run abcParams awaitingSession
      [.poll (.response 200 (some { otp := some .expired, expiresAtInSeconds := none }))]) =
        .Expired ∧
    status (run abcParams awaitingSession
      [.poll (.response 200 (some { otp := some .expired, expiresAtInSeconds := none })),
       .tick 5]) = .AwaitingRedemption := by
  decide

/-- C9: a tick at wall-clock `now` with `expirationTimestamp ≤ now`,
while the session is awaiting redemption, forces status to `Expired`. -/
theorem C9_tick_expires (s : Session) (now : Nat)
    (hs : status s = .AwaitingRedemption) (hnow : s.expirationTimestamp ≤ now) :
    status (tick now s) = .Expired := by
  rw [status_awaitingRedemption_iff] at hs
  obtain ⟨hr, hw, -, -⟩ := hs
  rw [status_expired_iff]
  refine ⟨hr, hw, ?_⟩
  simp only [tick, decide_eq_true_eq]
  omega

/-- Witness for C9 at a concrete session and time. -/
theorem C9_tick_expires_witness :
    status awaitingSession = .AwaitingRedemption ∧
    awaitingSession.expirationTimestamp ≤ 1000000 ∧
    status (tick 1000000 awaitingSession) = .Expired :=
  ⟨by decide, by decide, C9_tick_expires awaitingSession 1000000 (by decide) (by decide)⟩

/-- C6: whenever the submit-blob request returns HTTP status 401, the
session status becomes `IpMismatch`, for every possible response body
(and whatever the encryption outcome was). -/
theorem C6_submit_401_ipMismatch (params : ScantasticParams) (pk : PublicKey)
    (encResult : Except String String) (body : Option BlobApiResponse)
    (now : Nat) (s : Session)
    (hpk : params.publicKey = some pk) (hred : s.redeemed = false) :
    status (onEncryptSeedphrase params encResult (.response 401 body) now s).1 =
      .IpMismatch := by
  rw [status_ipMismatch_iff]
  unfold onEncryptSeedphrase
  rw [hpk]
  cases encResult <;> simp [IP_MISMATCH_STATUS_CODE, hred]

/-- Witness for C6 at a concrete 401 response with a body. -/
theorem C6_submit_401_ipMismatch_witness :
    abcParams.publicKey = some { n := "3233", e := "17" } ∧
    awaitingSession.redeemed = false ∧
    status (onEncryptSeedphrase abcParams (.ok "blob")
      (.response 401 (some { otp := some "999999" })) 0 awaitingSession).1 =
      .IpMismatch :=
  ⟨by decide, by decide,
    C6_submit_401_ipMismatch abcParams { n := "3233", e := "17" } (.ok "blob")
      (some { otp := some "999999" }) 0 awaitingSession (by decide) (by decide)⟩

/-- C5: when the submit-blob request succeeds (2xx) with a non-empty OTP
in the body, the controller stores that OTP verbatim, sets the expiry to
exactly `now + 2 minutes` at the moment of the response, and the status
becomes `AwaitingRedemption` (for a session not already redeemed,
IP-warned or expired). -/
theorem C5_submit_success_stores_otp (params : ScantasticParams) (pk : PublicKey)
    (encResult : Except String String) (statusCode : Nat) (otpValue : String)
    (now : Nat) (s : Session)
    (hpk : params.publicKey = some pk) (hok : fetchOk statusCode = true)
    (hotp : otpValue ≠ "") (hred : s.redeemed = false)
    (hip : s.showIPWarning = false) (hexp : s.expired = false) :
    (onEncryptSeedphrase params encResult
        (.response statusCode (some { otp := some otpValue })) now s).1.OTP =
      otpValue ∧
    (onEncryptSeedphrase params encResult
        (.response statusCode (some { otp := some otpValue })) now s).1.expirationTimestamp =
      now + ONE_MINUTE_MS * 2 ∧
    status (onEncryptSeedphrase params encResult
        (.response statusCode (some { otp := some otpValue })) now s).1 =
      .AwaitingRedemption := by
  have hprop : 200 ≤ statusCode ∧ statusCode < 300 := by
    simpa [fetchOk] using hok
  have h401 : ¬(statusCode = IP_MISMATCH_STATUS_CODE) := by
    unfold IP_MISMATCH_STATUS_CODE
    omega
  unfold onEncryptSeedphrase
  rw [hpk]
  rw [status_awaitingRedemption_iff]
  cases encResult <;> simp [h401, hok, hotp, hred, hip, hexp]

/-- Witness for C5 at a concrete successful submit response. -/
theorem C5_submit_success_stores_otp_witness :
    abcParams.publicKey = some { n := "3233", e := "17" } ∧
    fetchOk 200 = true ∧ "482913" ≠ "" ∧
    (initialSession 0).redeemed = false ∧
    (initialSession 0).showIPWarning = false ∧
    (initialSession 0).expired = false ∧
    ((onEncryptSeedphrase abcParams (.ok "blob")
        (.response 200 (some { otp := some "482913" })) 70 (initialSession 0)).1.OTP =
      "482913" ∧
    (onEncryptSeedphrase abcParams (.ok "blob")
        (.response 200 (some { otp := some "482913" })) 70 (initialSession 0)).1.expirationTimestamp =
      70 + ONE_MINUTE_MS * 2 ∧
    status (onEncryptSeedphrase abcParams (.ok "blob")
        (.response 200 (some { otp := some "482913" })) 70 (initialSession 0)).1 =
      .AwaitingRedemption) :=
  ⟨by decide, by decide, by decide, by decide, by decide, by decide,
    C5_submit_success_stores_otp abcParams { n := "3233", e := "17" } (.ok "blob")
      200 "482913" 70 (initialSession 0) (by decide) (by decide) (by decide)
      (by decide) (by decide) (by decide)⟩

/-- C8: a poll whose fetch fails in transport, returns a non-2xx status,
returns an unparsable body, or returns a body lacking the OTP-state
field, leaves the whole session state unchanged. -/
theorem C8_poll_failure_unchanged (uuid : String) (s : Session)
    (res : FetchResult (Option OtpStateApiResponse))
    (h : res = .transportError ∨
      (∃ statusCode body, res = .response statusCode body ∧ fetchOk statusCode = false) ∨
      (∃ statusCode, res = .response statusCode none) ∨
      (∃ statusCode exp,
        res = .response statusCode (some { otp := none, expiresAtInSeconds := exp }))) :
    checkOTPState uuid res s = s := by
  unfold checkOTPState
  split
  · rfl
  · rcases h with rfl | ⟨st, body, rfl, hbad⟩ | ⟨st, rfl⟩ | ⟨st, exp, rfl⟩
    · rfl
    · simp [hbad]
    · by_cases hok : fetchOk st = true <;> simp [hok]
    · by_cases hok : fetchOk st = true <;> simp [hok]

/-- Witness for C8: a concrete 500 response leaves a concrete session
untouched. -/
theorem C8_poll_failure_unchanged_witness :
    ((FetchResult.response 500 (some { otp := some OtpState.redeemed, expiresAtInSeconds := some 7 }) :
        FetchResult (Option OtpStateApiResponse)) = .transportError ∨
      (∃ statusCode body, (FetchResult.response 500
          (some { otp := some OtpState.redeemed, expiresAtInSeconds := some 7 }) :
          FetchResult (Option OtpStateApiResponse)) = .response statusCode body ∧
        fetchOk statusCode = false) ∨
      (∃ statusCode, (FetchResult.response 500
          (some { otp := some OtpState.redeemed, expiresAtInSeconds := some 7 }) :
          FetchResult (Option OtpStateApiResponse)) = .response statusCode none) ∨
      (∃ statusCode exp, (FetchResult.response 500
          (some { otp := some OtpState.redeemed, expiresAtInSeconds := some 7 }) :
          FetchResult (Option OtpStateApiResponse)) =
        .response statusCode (some { otp := none, expiresAtInSeconds := exp }))) ∧
    checkOTPState "abc"
      (.response 500 (some { otp := some OtpState.redeemed, expiresAtInSeconds := some 7 }))
      awaitingSession = awaitingSession :=
  ⟨Or.inr (Or.inl ⟨500, _, rfl, by decide⟩),
    C8_poll_failure_unchanged "abc" awaitingSession _
      (Or.inr (Or.inl ⟨500, _, rfl, by decide⟩))⟩

/-- C7 (amended): on a successful poll response that carries both an
OTP-state field and a truthy (nonzero) `expiresAtInSeconds`, the expiry
is replaced by the server value `expiresAtInSeconds * 1000` — whether or
not it is fresher than the current one.  A successful response lacking
the OTP-state field leaves the expiry unchanged even when it carries a
fresher `expiresAtInSeconds` (see the counterexample). -/
theorem C7_poll_adopts_server_expiry (uuid : String) (s : Session)
    (statusCode : Nat) (otpState : OtpState) (k : Nat)
    (hOTP : s.OTP ≠ "") (huuid : uuid ≠ "")
    (hok : fetchOk statusCode = true) (hk : k ≠ 0) :
    (checkOTPState uuid
        (.response statusCode (some { otp := some otpState, expiresAtInSeconds := some k }))
        s).expirationTimestamp = k * ONE_SECOND_MS := by
  unfold checkOTPState
  rw [if_neg (by simp [hOTP, huuid])]
  cases otpState <;> simp [hok, hk]

/-- Witness for C7 (amended): a staler server expiry is still adopted. -/
theorem C7_poll_adopts_server_expiry_witness :
    awaitingSession.OTP ≠ "" ∧ ("abc" : String) ≠ "" ∧ fetchOk 200 = true ∧
    (3 : Nat) ≠ 0 ∧
    (checkOTPState "abc"
        (.response 200 (some { otp := some OtpState.pending, expiresAtInSeconds := some 3 }))
        awaitingSession).expirationTimestamp = 3 * ONE_SECOND_MS :=
  ⟨by decide, by decide, by decide, by decide,
    C7_poll_adopts_server_expiry "abc" awaitingSession 200 OtpState.pending 3
      (by decide) (by decide) (by decide) (by decide)⟩

/-- C7 counterexample: a successful (HTTP 200) poll response carrying a
fresher expiry (`expiresAtInSeconds = 999999`, i.e. 999999000 ms, far
beyond the session's current 1000000 ms) but no OTP-state field is
treated as a protocol error and the expiry is NOT adopted: the session is
unchanged. -/
theorem C7_counterexample :
    999999 * ONE_SECOND_MS > awaitingSession.expirationTimestamp ∧
    fetchOk 200 = true ∧
    checkOTPState "abc"
      (.response 200 (some { otp := none, expiresAtInSeconds := some 999999 }))
      awaitingSession = awaitingSession := by
  decide

/-- C1 (amended): when the encryption call fails, the controller records
an error message for display but does not stop: the submit-blob request
is still issued, with the blob left at the empty string. -/
theorem C1_encryption_failure_still_submits (params : ScantasticParams)
    (pk : PublicKey) (err : String) (res : FetchResult (Option BlobApiResponse))
    (now : Nat) (s : Session) (hpk : params.publicKey = some pk) :
    (onEncryptSeedphrase params (.error err) res now s).2 =
        some { uuid := params.uuid, blob := "" } ∧
      (onEncryptSeedphrase params (.error err) res now s).1.error ≠ "" := by
  unfold onEncryptSeedphrase
  rw [hpk]
  rcases res with _ | ⟨st, body⟩
  · exact ⟨rfl, by simp [scantasticErrorNoCode]⟩
  · by_cases h401 : st = IP_MISMATCH_STATUS_CODE
    · refine ⟨?_, ?_⟩ <;> simp [h401, scantasticErrorEncryption]
    · by_cases hok : fetchOk st = true
      · rcases body with _ | ⟨_ | v⟩
        · refine ⟨?_, ?_⟩ <;> simp [h401, hok, scantasticErrorNoCode]
        · refine ⟨?_, ?_⟩ <;> simp [h401, hok, scantasticErrorNoCode]
        · by_cases hv : v = ""
          · refine ⟨?_, ?_⟩ <;> simp [h401, hok, hv, scantasticErrorNoCode]
          · refine ⟨?_, ?_⟩ <;> simp [h401, hok, hv, scantasticErrorEncryption]
      · refine ⟨?_, ?_⟩ <;> simp [h401, hok, scantasticErrorNoCode]

/-- Witness for C1 (amended) at a concrete failing encryption. -/
theorem C1_encryption_failure_still_submits_witness :
    abcParams.publicKey = some { n := "3233", e := "17" } ∧
    ((onEncryptSeedphrase abcParams (.error "boom")
        (.response 200 (some { otp := some "482913" })) 70 (initialSession 0)).2 =
      some { uuid := "abc", blob := "" } ∧
    (onEncryptSeedphrase abcParams (.error "boom")
        (.response 200 (some { otp := some "482913" })) 70 (initialSession 0)).1.error ≠ "") :=
  ⟨by decide,
    C1_encryption_failure_still_submits abcParams { n := "3233", e := "17" } "boom"
      (.response 200 (some { otp := some "482913" })) 70 (initialSession 0) (by decide)⟩

/-- C1 counterexample: with a failing encryption call and a submit
response `200 {otp: "482913"}`, the submit-blob request IS issued (with
an empty blob) and the final status is `AwaitingRedemption`, not
`Failed` — the controller did not stop after the encryption failure. -/
theorem C1_counterexample :
    (onEncryptSeedphrase abcParams (.error "boom")
        (.response 200 (some { otp := some "482913" })) 70 (initialSession 0)).2 =
      some { uuid := "abc", blob := "" } ∧
    status (onEncryptSeedphrase abcParams (.error "boom")
        (.response 200 (some { otp := some "482913" })) 70 (initialSession 0)).1 =
      .AwaitingRedemption := by
  decide

/-- A well-formed poll response reporting `redeemed` sets the `redeemed`
flag, provided the poll guard passes and the fetch succeeded. -/
theorem checkOTPState_redeemed_response (uuid : String) (s : Session)
    (statusCode : Nat) (exp : Option Nat)
    (hOTP : s.OTP ≠ "") (huuid : uuid ≠ "") (hok : fetchOk statusCode = true) :
    (checkOTPState uuid
        (.response statusCode (some { otp := some .redeemed, expiresAtInSeconds := exp }))
        s).redeemed = true := by
  unfold checkOTPState
  rw [if_neg (by simp [hOTP, huuid])]
  cases exp with
  | none => simp [hok]
  | some k => by_cases hk : k = 0 <;> simp [hok, hk]

/-- C4: a poll response reporting the OTP state `redeemed`, received
while the session is awaiting redemption, makes the status `Redeemed`,
and the downstream completion dispatch fires exactly once: the next
render fires it (count becomes 1), no sequence of system events can ever
push the count past one, and after that render the count stays exactly
one forever. -/
theorem C4_redeemed_signal_once (params : ScantasticParams) (s : Session)
    (statusCode : Nat) (exp : Option Nat)
    (hok : fetchOk statusCode = true)
    (hs : status s = .AwaitingRedemption) (hu : params.uuid ≠ "") :
    status (checkOTPState params.uuid
        (.response statusCode (some { otp := some .redeemed, expiresAtInSeconds := exp })) s) =
      .Redeemed ∧
    (sysStep params
        { session := checkOTPState params.uuid
            (.response statusCode (some { otp := some .redeemed, expiresAtInSeconds := exp })) s
          active := true
          signalCount := 0 } .render).signalCount = 1 ∧
    (∀ evs : List SysEv,
      (sysRun params
        { session := checkOTPState params.uuid
            (.response statusCode (some { otp := some .redeemed, expiresAtInSeconds := exp })) s
          active := true
          signalCount := 0 } evs).signalCount ≤ 1) ∧
    (∀ evs : List SysEv,
      (sysRun params
        (sysStep params
          { session := checkOTPState params.uuid
              (.response statusCode (some { otp := some .redeemed, expiresAtInSeconds := exp })) s
            active := true
            signalCount := 0 } .render) evs).signalCount = 1) := by
  have hflags := (status_awaitingRedemption_iff s).mp hs
  have hred' := checkOTPState_redeemed_response params.uuid s statusCode exp
    hflags.2.2.2 hu hok
  set s' := checkOTPState params.uuid
    (.response statusCode (some { otp := some .redeemed, expiresAtInSeconds := exp })) s
  refine ⟨(status_redeemed_iff s').mpr hred', ?_, ?_, ?_⟩
  · simp [sysStep, hred']
  · intro evs
    exact (sysRun_signalInv params ⟨s', true, 0⟩ evs
      ⟨Nat.zero_le 1, fun _ => rfl⟩).1
  · intro evs
    have hstep : sysStep params ⟨s', true, 0⟩ .render = ⟨s', false, 1⟩ := by
      simp [sysStep, hred']
    rw [hstep]
    exact (sysRun_inactive_frozen params ⟨s', false, 1⟩ evs rfl).1

/-- Witness for C4 at a concrete session and a concrete 200 response. -/
theorem C4_redeemed_signal_once_witness :
    fetchOk 200 = true ∧
    status awaitingSession = .AwaitingRedemption ∧
    abcParams.uuid ≠ "" ∧
    (status (checkOTPState abcParams.uuid
        (.response 200 (some { otp := some .redeemed, expiresAtInSeconds := none }))
        awaitingSession) = .Redeemed ∧
    (sysStep abcParams
        { session := checkOTPState abcParams.uuid
            (.response 200 (some { otp := some .redeemed, expiresAtInSeconds := none }))
            awaitingSession
          active := true
          signalCount := 0 } .render).signalCount = 1 ∧
    (∀ evs : List SysEv,
      (sysRun abcParams
        { session := checkOTPState abcParams.uuid
            (.response 200 (some { otp := some .redeemed, expiresAtInSeconds := none }))
            awaitingSession
          active := true
          signalCount := 0 } evs).signalCount ≤ 1) ∧
    (∀ evs : List SysEv,
      (sysRun abcParams
        (sysStep abcParams
          { session := checkOTPState abcParams.uuid
              (.response 200 (some { otp := some .redeemed, expiresAtInSeconds := none }))
              awaitingSession
            active := true
            signalCount := 0 } .render) evs).signalCount = 1)) :=
  ⟨by decide, by decide, by decide,
    C4_redeemed_signal_once abcParams awaitingSession 200 none
      (by decide) (by decide) (by decide)⟩

/-- C10: whatever order the wallet context lists the signer accounts in,
the account selected for the flow is one carrying the lowest derivation
index, and the address handed to the Encryption Collaborator is that
account's address. -/
theorem C10_lowest_derivation_index (accounts : List SignerAccount)
    (h : accounts ≠ []) :
    ∃ a, scantasticAccount accounts = some a ∧ a ∈ accounts ∧
      (∀ b ∈ accounts, a.derivationIndex ≤ b.derivationIndex) ∧
      encryptionAddress accounts = a.address := by
  have htrans : ∀ x y z : SignerAccount,
      derivationLe x y → derivationLe y z → derivationLe x z := by
    intro x y z hxy hyz
    simp only [derivationLe, decide_eq_true_eq] at *
    omega
  have htotal : ∀ x y : SignerAccount, (derivationLe x y || derivationLe y x) = true := by
    intro x y
    rcases Nat.le_total x.derivationIndex y.derivationIndex with hle | hle <;>
      simp [derivationLe, hle]
  have hperm := List.mergeSort_perm accounts derivationLe
  have hsorted := List.sorted_mergeSort htrans htotal accounts
  cases hl : accounts.mergeSort derivationLe with
  | nil =>
    rw [hl] at hperm
    exact absurd hperm.symm.eq_nil h
  | cons a t =>
    refine ⟨a, ?_, ?_, ?_, ?_⟩
    · unfold scantasticAccount
      rw [hl]
      rfl
    · have ha : a ∈ accounts.mergeSort derivationLe := by
        rw [hl]
        exact List.mem_cons_self a t
      exact List.mem_mergeSort.mp ha
    · intro b hb
      have hbms : b ∈ accounts.mergeSort derivationLe := List.mem_mergeSort.mpr hb
      rw [hl] at hbms
      rcases List.mem_cons.mp hbms with rfl | hbt
      · exact Nat.le_refl _
      · rw [hl] at hsorted
        have hle := (List.pairwise_cons.mp hsorted).1 b hbt
        simpa [derivationLe, decide_eq_true_eq] using hle
    · unfold encryptionAddress scantasticAccount
      rw [hl]
      by_cases ha : a.address = "" <;> simp [ha]

/-- Witness for C10: from a concrete unsorted account list, the account
with derivation index 0 is selected and its address used. -/
theorem C10_lowest_derivation_index_witness :
    ([⟨"0xBravo", 2⟩, ⟨"0xAlpha", 0⟩, ⟨"0xCharlie", 1⟩] : List SignerAccount) ≠ [] ∧
    (∃ a : SignerAccount,
      scantasticAccount [⟨"0xBravo", 2⟩, ⟨"0xAlpha", 0⟩, ⟨"0xCharlie", 1⟩] = some a ∧
      a ∈ ([⟨"0xBravo", 2⟩, ⟨"0xAlpha", 0⟩, ⟨"0xCharlie", 1⟩] : List SignerAccount) ∧
      (∀ b ∈ ([⟨"0xBravo", 2⟩, ⟨"0xAlpha", 0⟩, ⟨"0xCharlie", 1⟩] : List SignerAccount),
        a.derivationIndex ≤ b.derivationIndex) ∧
      encryptionAddress [⟨"0xBravo", 2⟩, ⟨"0xAlpha", 0⟩, ⟨"0xCharlie", 1⟩] = a.address) :=
  ⟨by decide,
    C10_lowest_derivation_index [⟨"0xBravo", 2⟩, ⟨"0xAlpha", 0⟩, ⟨"0xCharlie", 1⟩]
      (by decide)⟩

end Scantastic
